import Mathlib

/-!
Verification of the api-gateway repository's routing and admission-control
core, shallowly embedded from the Go sources.

The embedding covers:
* `internal/handlers/proxy.go` — longest-prefix route selection
  (`ServeHTTP`), the reverse-proxy `Director`, `ModifyResponse` and
  `ErrorHandler` hooks;
* `internal/services/ratelimiter.go` — per-visitor token buckets
  (`GetVisitorLimiter`, `VisitorCleanup`, `isTesting`);
* `pkg/middleware` — `RateLimitMiddleware`;
* `cmd/api/main.go` — the assembled protected handler chain.

Machine integers do not occur (Go `int` values here are list lengths and
HTTP status codes, far from overflow); time is modelled in seconds as `ℚ`,
matching the float-valued clock arithmetic of the token bucket.
-/

namespace ApiGateway

/-- A routing rule, from `pkg/config/config.go` (`type Route struct`):
a path prefix and the upstream base URL. -/
structure Route where
  PathPrefix : String
  UpstreamURL : String
deriving DecidableEq

/-- What the gateway does with one request: either it writes a response
itself (status plus body, no upstream contacted) or it forwards the
request to the upstream of the selected route with the given outbound
path.  The `forwarded` constructor is the only way an upstream is
contacted. -/
inductive GatewayOutcome where
  | response (status : Nat) (body : String)
  | forwarded (route : Route) (outPath : String)
deriving DecidableEq

/-- Go's `http.Error(w, msg, status)`: writes `msg` followed by a newline
as the body. -/
def httpError (msg : String) (status : Nat) : GatewayOutcome :=
  GatewayOutcome.response status (msg ++ "\n")

/-- Go's `strings.HasPrefix(s, pre)`: `pre` is a leading substring of `s`.
Byte-level prefixing of UTF-8 strings coincides with character-level
prefixing, so it is expressed over the character lists. -/
def goHasPrefix (s pre : String) : Bool :=
  pre.toList.isPrefixOf s.toList

/-- `strings.HasPrefix(path, route.PathPrefix)` from `proxy.go`. -/
def routeMatches (path : String) (r : Route) : Bool :=
  goHasPrefix path r.PathPrefix

/-- Go's `len(route.PathPrefix)`: the byte length of the prefix. -/
def prefLen (r : Route) : Nat :=
  r.PathPrefix.utf8ByteSize

/-- The selection loop of `ProxyHandler.ServeHTTP` (proxy.go lines 29-44):
iterate over the routes in declared order, keeping `bestMatch` and
`longestPrefix`; a route replaces the current best only when it matches
and its prefix is strictly longer. -/
def selectLoop (path : String) : List Route → Option Route → Nat → Option Route
  | [], best, _ => best
  | r :: rest, best, longest =>
    if routeMatches path r && decide (prefLen r > longest) then
      selectLoop path rest (some r) (prefLen r)
    else
      selectLoop path rest best longest

/-- Route selection as performed by `ProxyHandler.ServeHTTP`: the loop
started with no best match and `longestPrefix = 0`. -/
def selectRoute (routes : List Route) (path : String) : Option Route :=
  selectLoop path routes none 0

/-- `ProxyHandler.ServeHTTP` up to the point where the request is either
answered (404) or handed to the reverse proxy.  When no route matches the
handler writes `http.Error(w, "Route not found", 404)` and returns without
contacting any upstream; otherwise it forwards to the best match with the
original path (the `Director` sets `req.URL.Path = r.URL.Path`).  The
`url.Parse` failure branch (500) cannot fire for a well-formed
configuration and is outside the routing claims. -/
def proxyServeHTTP (routes : List Route) (path : String) : GatewayOutcome :=
  match selectRoute routes path with
  | none => httpError "Route not found" 404
  | some best => GatewayOutcome.forwarded best path

/-- Modelled from the spec for the refinement claim on route resolution
(spec section 4.1): the greatest matching prefix length among the
configured routes, `0` when none matches. -/
def specMaxLen (routes : List Route) (path : String) : Nat :=
  ((routes.filter (routeMatches path)).map prefLen).foldl max 0

/-- Modelled from the spec for the refinement claim on route resolution
(spec section 4.1): scan all routes, keep those whose prefix is a
string-prefix of the path, select the one of greatest prefix length, and
break ties by earliest registration order (the first declared such route);
no matching route means `none` (NotFound). -/
def specResolve (routes : List Route) (path : String) : Option Route :=
  (routes.filter (routeMatches path)).find?
    (fun r => prefLen r == specMaxLen routes path)

/-- The spec-side HTTP behaviour (spec sections 4.1 and 8): NotFound maps
to a 404 whose body contains "Route not found"; a resolved route is
forwarded with the original path. -/
def specServe (routes : List Route) (path : String) : GatewayOutcome :=
  match specResolve routes path with
  | none => httpError "Route not found" 404
  | some r => GatewayOutcome.forwarded r path

/-- The running maximum that mirrors `longestPrefix` in the loop: fold the
matching routes' prefix lengths into an initial value. -/
def mxl (path : String) (l : List Route) (init : Nat) : Nat :=
  l.foldl (fun m r => if routeMatches path r then max m (prefLen r) else m) init

theorem mxl_nil (path : String) (init : Nat) : mxl path [] init = init := rfl

theorem mxl_cons (path : String) (r : Route) (rest : List Route) (init : Nat) :
    mxl path (r :: rest) init
      = mxl path rest (if routeMatches path r then max init (prefLen r) else init) := by
  simp [mxl, List.foldl_cons]

theorem le_mxl (path : String) (l : List Route) :
    ∀ init : Nat, init ≤ mxl path l init := by
  induction l with
  | nil => intro init; simp [mxl_nil]
  | cons r rest ih =>
    intro init
    rw [mxl_cons]
    have h1 : init ≤ (if routeMatches path r then max init (prefLen r) else init) := by
      split
      · exact Nat.le_max_left _ _
      · exact Nat.le_refl _
    exact Nat.le_trans h1 (ih _)

/-- The loop computes: if some remaining route strictly beats the current
best length, the first matching route of overall-maximal length; otherwise
the carried best. -/
theorem selectLoop_eq (path : String) (l : List Route) :
    ∀ (best : Option Route) (longest : Nat),
      selectLoop path l best longest
        = if mxl path l longest > longest then
            (l.filter (routeMatches path)).find?
              (fun r => prefLen r == mxl path l longest)
          else best := by
  induction l with
  | nil => intro best longest; simp [selectLoop, mxl_nil]
  | cons r rest ih =>
    intro best longest
    rcases hm : routeMatches path r with _ | _
    · -- the route does not match: the loop, the max and the filter skip it
      rw [mxl_cons, hm]
      simpa [selectLoop, hm] using ih best longest
    · by_cases hgt : prefLen r > longest
      · -- matching and strictly longer: the loop updates its state
        have hmax : max longest (prefLen r) = prefLen r :=
          Nat.max_eq_right (Nat.le_of_lt hgt)
        rw [mxl_cons, hm]
        simp only [if_pos rfl, hmax]
        have hstep : selectLoop path (r :: rest) best longest
            = selectLoop path rest (some r) (prefLen r) := by
          simp [selectLoop, hm, hgt]
        rw [hstep, ih (some r) (prefLen r)]
        have hMge : prefLen r ≤ mxl path rest (prefLen r) := le_mxl path rest _
        by_cases hM : mxl path rest (prefLen r) > prefLen r
        · -- a later route beats this one: the first max is further on
          have hne : (prefLen r == mxl path rest (prefLen r)) = false := by
            simp [Nat.ne_of_lt hM]
          have houter : mxl path rest (prefLen r) > longest :=
            Nat.lt_trans hgt hM
          simp [hM, houter, List.filter_cons, hm, List.find?_cons, hne]
        · -- nothing later beats it: this route is the first max
          have heq : mxl path rest (prefLen r) = prefLen r :=
            Nat.le_antisymm (Nat.le_of_not_lt hM) hMge
          have houter : mxl path rest (prefLen r) > longest := by
            rw [heq]; exact hgt
          simp [hM, houter, List.filter_cons, hm, List.find?_cons, heq, hgt]
      · -- matching but not longer: the loop keeps its state
        have hle : prefLen r ≤ longest := Nat.le_of_not_lt hgt
        have hmax : max longest (prefLen r) = longest := Nat.max_eq_left hle
        rw [mxl_cons, hm]
        simp only [if_pos rfl, hmax]
        have hstep : selectLoop path (r :: rest) best longest
            = selectLoop path rest best longest := by
          simp [selectLoop, hm, hgt]
        rw [hstep, ih best longest]
        by_cases hM : mxl path rest longest > longest
        · have hne : (prefLen r == mxl path rest longest) = false := by
            have : prefLen r ≠ mxl path rest longest :=
              Nat.ne_of_lt (Nat.lt_of_le_of_lt hle hM)
            simp [this]
          simp [hM, List.filter_cons, hm, List.find?_cons, hne]
        · simp [hM]

/-- `mxl` over the whole list equals the spec-side fold over the filtered
matching lengths, for any initial value. -/
theorem mxl_eq_foldl (path : String) (l : List Route) :
    ∀ init : Nat,
      mxl path l init
        = ((l.filter (routeMatches path)).map prefLen).foldl max init := by
  induction l with
  | nil => intro init; simp [mxl_nil]
  | cons r rest ih =>
    intro init
    rcases hm : routeMatches path r with _ | _
    · rw [mxl_cons, hm]
      simpa [List.filter_cons, hm] using ih init
    · rw [mxl_cons, hm]
      simpa [List.filter_cons, hm] using ih (max init (prefLen r))

/-- Under the spec's data-model invariant (every configured prefix is
non-empty), the handler's selection agrees with the spec-worded resolver. -/
theorem selectRoute_eq_specResolve (routes : List Route) (path : String)
    (h : ∀ r ∈ routes, 0 < prefLen r) :
    selectRoute routes path = specResolve routes path := by
  have hfold : mxl path routes 0 = specMaxLen routes path := by
    rw [mxl_eq_foldl]; rfl
  rw [selectRoute, selectLoop_eq, hfold]
  by_cases hM : specMaxLen routes path > 0
  · simp [hM, specResolve]
  · -- maximal matching length 0: with non-empty prefixes nothing matches
    rw [if_neg hM]
    rcases hfind : specResolve routes path with _ | r
    · rfl
    · exfalso
      have hfind' : (routes.filter (routeMatches path)).find?
          (fun x => prefLen x == specMaxLen routes path) = some r := hfind
      have hmem : r ∈ routes.filter (routeMatches path) :=
        List.mem_of_find?_eq_some hfind'
      have hzero : specMaxLen routes path = 0 := Nat.eq_zero_of_not_pos hM
      have hrlen : prefLen r = 0 := by
        have hpred := List.find?_some hfind'
        have heqlen : prefLen r = specMaxLen routes path := by simpa using hpred
        omega
      have hr : r ∈ routes := (List.mem_filter.mp hmem).1
      exact absurd hrlen (Nat.ne_of_gt (h r hr))

/-- When no route matches the path, the loop hands back whatever best match
it was started with. -/
theorem selectLoop_no_match (path : String) (l : List Route)
    (h : ∀ r ∈ l, routeMatches path r = false) :
    ∀ (best : Option Route) (longest : Nat), selectLoop path l best longest = best := by
  induction l with
  | nil => intro best longest; rfl
  | cons r rest ih =>
    intro best longest
    have hr : routeMatches path r = false := h r (List.mem_cons_self r rest)
    have hrest : ∀ x ∈ rest, routeMatches path x = false :=
      fun x hx => h x (List.mem_cons_of_mem r hx)
    simp [selectLoop, hr, ih hrest]

/-- `needle` occurs as a contiguous run inside `hay`. -/
def containsSub (needle : List Char) : List Char → Bool
  | [] => needle.isEmpty
  | c :: t => needle.isPrefixOf (c :: t) || containsSub needle t

/-- Whether a gateway-authored response's body contains `s`; a forwarded
request has no gateway-authored body. -/
def respBodyContains (o : GatewayOutcome) (s : String) : Bool :=
  match o with
  | GatewayOutcome.response _ body => containsSub s.toList body.toList
  | GatewayOutcome.forwarded _ _ => false

/-- C1: for every request path and configured route list (each prefix
non-empty, the spec's data-model invariant), `ServeHTTP` selects the route
whose prefix is a string-prefix of the path with the greatest prefix
length, breaking ties by earliest declaration — stated as agreement with
the resolver transcribed from the spec's words — and when no route's
prefix matches it responds 404 with a body containing "Route not found"
and contacts no upstream (the outcome is a `response`, never a
`forwarded`). -/
theorem c1_longest_prefix_route_selection (routes : List Route) (path : String)
    (hpre : ∀ r ∈ routes, 0 < prefLen r) :
    proxyServeHTTP routes path = specServe routes path
    ∧ ((∀ r ∈ routes, routeMatches path r = false) →
        proxyServeHTTP routes path
            = GatewayOutcome.response 404 ("Route not found" ++ "\n")
          ∧ respBodyContains (proxyServeHTTP routes path) "Route not found" = true) := by
  constructor
  · unfold proxyServeHTTP specServe
    rw [selectRoute_eq_specResolve routes path hpre]
  · intro hnone
    have hsel : selectRoute routes path = none :=
      selectLoop_no_match path routes hnone none 0
    have hserve : proxyServeHTTP routes path
        = GatewayOutcome.response 404 ("Route not found" ++ "\n") := by
      simp [proxyServeHTTP, hsel, httpError]
    refine ⟨hserve, ?_⟩
    rw [hserve]
    decide

/-- The route table of the spec's longest-prefix example (section 8). -/
def c1Routes : List Route :=
  [{ PathPrefix := "/users", UpstreamURL := "http://users-a" },
   { PathPrefix := "/users/profiles", UpstreamURL := "http://users-b" }]

/-- Witness for C1 at the spec's own example: with routes `/users` and
`/users/profiles`, the path `/users/profiles/1` is forwarded to the
`/users/profiles` route (longest prefix wins over the generic match). -/
theorem c1_longest_prefix_route_selection_witness :
    proxyServeHTTP c1Routes "/users/profiles/1"
      = GatewayOutcome.forwarded
          { PathPrefix := "/users/profiles", UpstreamURL := "http://users-b" }
          "/users/profiles/1" := by
  have h := (c1_longest_prefix_route_selection c1Routes "/users/profiles/1" (by decide)).1
  rw [h]
  decide

/-- Sanity check of the tie-break: two routes with equal-length matching
prefixes — the first-declared one is selected. -/
theorem selectRoute_tie_first_declared :
    selectRoute [{ PathPrefix := "/a", UpstreamURL := "http://one" },
                 { PathPrefix := "/a", UpstreamURL := "http://two" }] "/a/x"
      = some { PathPrefix := "/a", UpstreamURL := "http://one" } := by
  decide

/-! ## Observability events and the proxy hooks -/

/-- Events the handler reports to the observability collaborator (the
structured logger calls in proxy.go). -/
inductive LogEvent where
  | upstreamResponse (requestID upstream : String) (status : Nat)
  | upstreamError (requestID upstream : String) (err : String)
deriving DecidableEq

theorem isPrefixOf_append_self (x q : List Char) : x.isPrefixOf (x ++ q) = true := by
  induction x with
  | nil => simp [List.isPrefixOf]
  | cons a x ih => simp [List.isPrefixOf, ih]

theorem containsSub_of_isPrefixOf {x h : List Char} (hp : x.isPrefixOf h = true) :
    containsSub x h = true := by
  cases h with
  | nil =>
    cases x with
    | nil => rfl
    | cons a t => simp [List.isPrefixOf] at hp
  | cons c t => simp [containsSub, hp]

theorem containsSub_append (x p q : List Char) : containsSub x (p ++ (x ++ q)) = true := by
  induction p with
  | nil => simpa using containsSub_of_isPrefixOf (isPrefixOf_append_self x q)
  | cons c p ih => simp [containsSub, ih]

/-- `proxy.ErrorHandler` from proxy.go lines 101-108: on a proxying error
(connection refused, DNS failure, timeout) it logs the error with the
request id and upstream, then writes
`http.Error(w, fmt.Sprintf("Upstream service unavailable: %v", err), 502)`
to the client. -/
def errorHandler (requestID upstreamURL err : String) : LogEvent × GatewayOutcome :=
  (LogEvent.upstreamError requestID upstreamURL err,
   httpError ("Upstream service unavailable: " ++ err) 502)

/-- C2 counterexample: at the concrete transport error "connection
refused" the 502 body does contain the underlying error text, refuting
"the body never contains the underlying transport error". -/
theorem c2_counterexample_body_echoes_error :
    (errorHandler "req-1" "http://127.0.0.1:9999" "connection refused").2
        = GatewayOutcome.response 502
            ("Upstream service unavailable: connection refused" ++ "\n")
    ∧ respBodyContains (errorHandler "req-1" "http://127.0.0.1:9999" "connection refused").2
        "connection refused" = true
    ∧ ¬ (respBodyContains
          (errorHandler "req-1" "http://127.0.0.1:9999" "connection refused").2
          "connection refused" = false) := by
  refine ⟨by decide, by decide, by decide⟩

/-- C2 amended: on a transport-level upstream failure the gateway responds
502 and reports the raw error to the observability collaborator, but the
body is "Upstream service unavailable: " followed by the underlying error
text — the transport error is echoed to the client, not hidden. -/
theorem c2_amended_502_echoes_transport_error (requestID upstreamURL err : String) :
    (errorHandler requestID upstreamURL err).1
        = LogEvent.upstreamError requestID upstreamURL err
    ∧ (errorHandler requestID upstreamURL err).2
        = GatewayOutcome.response 502 (("Upstream service unavailable: " ++ err) ++ "\n")
    ∧ respBodyContains (errorHandler requestID upstreamURL err).2 err = true := by
  refine ⟨rfl, rfl, ?_⟩
  show containsSub err.toList ((("Upstream service unavailable: " ++ err) ++ "\n")).toList
      = true
  have hsplit : ((("Upstream service unavailable: " ++ err) ++ "\n")).toList
      = "Upstream service unavailable: ".toList ++ (err.toList ++ "\n".toList) := by
    simp
  rw [hsplit]
  exact containsSub_append _ _ _

/-- An upstream HTTP response as seen by the gateway: status code, headers
(a map from header name to value) and body bytes. -/
structure HttpResponse where
  status : Nat
  headers : String → Option String
  body : String

/-- `proxy.ModifyResponse` from proxy.go lines 90-99: log the backend
interaction (request id, upstream, status) and return nil — the response
is not modified, and the reverse proxy relays it to the client as-is. -/
def modifyResponse (requestID upstreamURL : String) (resp : HttpResponse) :
    LogEvent × HttpResponse :=
  (LogEvent.upstreamResponse requestID upstreamURL resp.status, resp)

/-- C5: every response received from the upstream — 4xx and 5xx included —
is relayed with status code, headers and body unmodified (so an upstream
201 with body X yields a client-visible 201 with byte-identical body X);
the hook only emits an observability event. -/
theorem c5_upstream_response_relayed_unmodified (requestID upstreamURL : String)
    (resp : HttpResponse) :
    (modifyResponse requestID upstreamURL resp).2.status = resp.status
    ∧ (modifyResponse requestID upstreamURL resp).2.headers = resp.headers
    ∧ (modifyResponse requestID upstreamURL resp).2.body = resp.body
    ∧ (modifyResponse requestID upstreamURL resp).1
        = LogEvent.upstreamResponse requestID upstreamURL resp.status :=
  ⟨rfl, rfl, rfl, rfl⟩

/-! ## The outbound request: Director and header propagation -/

/-- Scheme and host of the parsed upstream URL (`url.Parse` result as used
by the director). -/
structure UrlParts where
  scheme : String
  host : String

/-- The values external middleware may have attached to the request's
context: the identity under `middleware.UserIDKey` and the correlation id
under `middleware.CtxRequestIDKey`.  A failed type assertion
`ctx.Value(k).(string)` in Go yields the empty string with `ok = false`,
which the model renders as `Option.getD "" `/ a `match`. -/
structure ReqContext where
  userID : Option String
  requestID : Option String

/-- An HTTP request: method, target URL pieces, `Host` header, the header
map and the body bytes. -/
structure HttpRequest where
  method : String
  scheme : String
  host : String
  path : String
  rawQuery : String
  hostHeader : String
  headers : String → Option String
  body : String

/-- Go's `http.Header.Set(k, v)`: replace the value stored under `k`. -/
def headerSet (h : String → Option String) (k v : String) : String → Option String :=
  fun n => if n = k then some v else h n

/-- The hop-by-hop headers stripped by `net/http/httputil` from the
outbound request after the director runs. -/
def hopByHopHeaderNames : List String :=
  ["Connection", "Proxy-Connection", "Keep-Alive", "Proxy-Authenticate",
   "Proxy-Authorization", "Te", "Trailer", "Transfer-Encoding", "Upgrade"]

/-- `proxy.Director` from proxy.go lines 64-86, applied to the outbound
clone `outreq` of the inbound request `r`: set scheme and host from the
parsed upstream URL, keep the original path (`req.URL.Path = r.URL.Path`,
no prefix stripped), set `req.Host` to the upstream host; set `X-User-ID`
from the context only when an identity is present (otherwise only a
warning is logged and the header map is untouched); set `X-Request-ID`
unconditionally to the context's request id, which is the empty string
when none was attached (`requestID, _ := r.Context().Value(...)`). -/
def director (upstreamURL : UrlParts) (r : HttpRequest) (ctx : ReqContext)
    (outreq : HttpRequest) : HttpRequest :=
  let requestID := ctx.requestID.getD ""
  let req1 := { outreq with
    scheme := upstreamURL.scheme
    host := upstreamURL.host
    path := r.path
    hostHeader := upstreamURL.host }
  let req2 :=
    match ctx.userID with
    | some userID => { req1 with headers := headerSet req1.headers "X-User-ID" userID }
    | none => req1
  { req2 with headers := headerSet req2.headers "X-Request-ID" requestID }

/-- The outbound request as `httputil.ReverseProxy` builds it: clone the
inbound request (method, URL, headers, body all copied), run the director
on the clone, then strip hop-by-hop headers. -/
def buildOutbound (upstreamURL : UrlParts) (ctx : ReqContext) (r : HttpRequest) :
    HttpRequest :=
  let d := director upstreamURL r ctx r
  { d with headers := fun n => if n ∈ hopByHopHeaderNames then none else d.headers n }

/-- C6: the outbound request carries the original path unmodified (no
prefix stripped by the engine), the raw query string unchanged, the same
method, a byte-identical body, and every header other than the hop-by-hop
set and the two injected trust-context headers (`X-User-ID`,
`X-Request-ID`, cf. spec section 6) with its original value. -/
theorem c6_outbound_request_preserved (upstreamURL : UrlParts) (ctx : ReqContext)
    (r : HttpRequest) :
    (buildOutbound upstreamURL ctx r).path = r.path
    ∧ (buildOutbound upstreamURL ctx r).rawQuery = r.rawQuery
    ∧ (buildOutbound upstreamURL ctx r).method = r.method
    ∧ (buildOutbound upstreamURL ctx r).body = r.body
    ∧ ∀ n : String, n ∉ hopByHopHeaderNames →
        n ≠ "X-User-ID" → n ≠ "X-Request-ID" →
        (buildOutbound upstreamURL ctx r).headers n = r.headers n := by
  obtain ⟨uid, rid⟩ := ctx
  cases uid with
  | none =>
    refine ⟨rfl, rfl, rfl, rfl, ?_⟩
    intro n h1 h2 h3
    simp [buildOutbound, director, headerSet, h1, h3]
  | some u =>
    refine ⟨rfl, rfl, rfl, rfl, ?_⟩
    intro n h1 h2 h3
    simp [buildOutbound, director, headerSet, h1, h2, h3]

/-- Upstream URL fixture for the outbound-request witnesses. -/
def c6Up : UrlParts := { scheme := "http", host := "users-svc:8081" }

/-- Context fixture with both identity and correlation id present. -/
def c6Ctx : ReqContext :=
  { userID := some "user-test-456", requestID := some "req-id-789" }

/-- Inbound request fixture: the test suite's proxied request, with an
`Authorization` header, a `Connection` hop-by-hop header, a query string
and a JSON body. -/
def c6Req : HttpRequest :=
  { method := "POST"
    scheme := "http"
    host := "gateway:8080"
    path := "/users/123"
    rawQuery := "q=golang&limit=10"
    hostHeader := "gateway:8080"
    headers := fun n =>
      if n = "Authorization" then some "Bearer my-secret-token"
      else if n = "Connection" then some "keep-alive"
      else none
    body := "\x7b\"name\":\"test\"\x7d" }

/-- Witness for C6: on the concrete fixture the `Authorization` header,
body and query string reach the upstream unchanged. -/
theorem c6_outbound_request_preserved_witness :
    (buildOutbound c6Up c6Ctx c6Req).headers "Authorization"
        = some "Bearer my-secret-token"
    ∧ (buildOutbound c6Up c6Ctx c6Req).body = "\x7b\"name\":\"test\"\x7d"
    ∧ (buildOutbound c6Up c6Ctx c6Req).rawQuery = "q=golang&limit=10" := by
  have h := c6_outbound_request_preserved c6Up c6Ctx c6Req
  refine ⟨?_, ?_, ?_⟩
  · rw [h.2.2.2.2 "Authorization" (by decide) (by decide) (by decide)]
    rfl
  · rw [h.2.2.2.1]
    rfl
  · rw [h.2.1]
    rfl

/-- Context fixture with neither identity nor correlation id. -/
def c7Ctx : ReqContext := { userID := none, requestID := none }

/-- Inbound request fixture whose client already supplied an `X-User-ID`
header. -/
def c7Req : HttpRequest :=
  { method := "GET"
    scheme := "http"
    host := "gateway:8080"
    path := "/users/123"
    rawQuery := ""
    hostHeader := "gateway:8080"
    headers := fun n => if n = "X-User-ID" then some "spoofed-admin" else none
    body := "" }

/-- C7 counterexample: with neither identity nor correlation id in the
context, the outbound request still carries an `X-Request-ID` header
(set to the empty string) although the claim says no correlation header
is sent, and the client-supplied `X-User-ID` header passes through
although the claim says `X-User-ID` is set only if an identity is
present. -/
theorem c7_counterexample_headers :
    (buildOutbound c6Up c7Ctx c7Req).headers "X-Request-ID" = some ""
    ∧ ¬ ((buildOutbound c6Up c7Ctx c7Req).headers "X-Request-ID" = none)
    ∧ (buildOutbound c6Up c7Ctx c7Req).headers "X-User-ID" = some "spoofed-admin" := by
  refine ⟨by decide, by decide, by decide⟩

/-- C7 amended: the gateway sets `X-User-ID` to the context identity when
one is present and leaves the header map untouched at that name when the
identity is absent (so a client-supplied value passes through); the
outbound `X-Request-ID` header is always set — to the context correlation
id when present, and to the empty string when none is attached. -/
theorem c7_amended_trust_context_headers (upstreamURL : UrlParts) (ctx : ReqContext)
    (r : HttpRequest) :
    (∀ u, ctx.userID = some u →
        (buildOutbound upstreamURL ctx r).headers "X-User-ID" = some u)
    ∧ (ctx.userID = none →
        (buildOutbound upstreamURL ctx r).headers "X-User-ID" = r.headers "X-User-ID")
    ∧ (∀ rid, ctx.requestID = some rid →
        (buildOutbound upstreamURL ctx r).headers "X-Request-ID" = some rid)
    ∧ (ctx.requestID = none →
        (buildOutbound upstreamURL ctx r).headers "X-Request-ID" = some "") := by
  obtain ⟨uid, rid⟩ := ctx
  refine ⟨?_, ?_, ?_, ?_⟩
  · intro u hu
    subst hu
    simp [buildOutbound, director, headerSet, hopByHopHeaderNames]
  · intro hu
    subst hu
    simp [buildOutbound, director, headerSet, hopByHopHeaderNames]
  · intro v hv
    subst hv
    simp [buildOutbound, director, headerSet, hopByHopHeaderNames]
  · intro hv
    subst hv
    simp [buildOutbound, director, headerSet, hopByHopHeaderNames]

/-- Witness for C7 (amended): with identity and correlation id both
present, both outbound headers carry the context values. -/
theorem c7_amended_trust_context_headers_witness :
    (buildOutbound c6Up c6Ctx c7Req).headers "X-User-ID" = some "user-test-456"
    ∧ (buildOutbound c6Up c6Ctx c7Req).headers "X-Request-ID" = some "req-id-789" :=
  ⟨(c7_amended_trust_context_headers c6Up c6Ctx c7Req).1 "user-test-456" rfl,
   (c7_amended_trust_context_headers c6Up c6Ctx c7Req).2.2.1 "req-id-789" rfl⟩

/-! ## Admission control: per-visitor token buckets -/

/-- The token-bucket state behind a visitor's `rate.Limiter`.  Modelled
from the spec: `golang.org/x/time/rate` is a third-party library whose
code is not in this repository; spec section 4.3 gives the semantics the
gateway relies on — lazy refill
`min(capacity, tokens + elapsedSeconds * sustainedRate)` computed from
`now - lastRefillAt`.  The constants are the repository's:
`rate.NewLimiter(2, 5)` in ratelimiter.go, so `sustainedRate = 2`
tokens/second and `capacity (burst) = 5`.  Time is in seconds, as `ℚ`. -/
structure Bucket where
  tokens : ℚ
  lastRefillAt : ℚ
deriving DecidableEq

/-- Modelled from the spec (section 4.3): one `Allow()` call — refill
lazily, update `lastRefillAt = now`; if at least one token is available,
deduct one and admit, otherwise reject and do not deduct. -/
def bucketAllow (now : ℚ) (b : Bucket) : Bool × Bucket :=
  let t := min 5 (b.tokens + (now - b.lastRefillAt) * 2)
  if 1 ≤ t then (true, { tokens := t - 1, lastRefillAt := now })
  else (false, { tokens := t, lastRefillAt := now })

/-- A fresh limiter `rate.NewLimiter(2, 5)`: full capacity on first use
(spec section 4.3: a bucket is created with full capacity on first
observation of an identity). -/
def freshBucket (now : ℚ) : Bucket := { tokens := 5, lastRefillAt := now }

/-- One entry of ratelimiter.go's `visitorMap`: the limiter and the
`lastSeen` timestamp. -/
structure Visitor where
  bucket : Bucket
  lastSeen : ℚ
deriving DecidableEq

/-- One admission check on a single visitor entry, as the middleware
performs it: `GetVisitorLimiter` sets `v.lastSeen = time.Now()` (a fresh
entry is created with `lastSeen = now`), then `RateLimitMiddleware` calls
`limiter.Allow()` on the returned limiter.  The `lastSeen` update happens
on every call, before and regardless of the admission decision
(ratelimiter.go lines 27-38). -/
def visitorCheck (now : ℚ) (v : Visitor) : Bool × Visitor :=
  let r := bucketAllow now v.bucket
  (r.1, { bucket := r.2, lastSeen := now })

/-- The in-memory visitor registry `visitorMap`, keyed by client IP. -/
abbrev VisitorMap := List (String × Visitor)

/-- `GetVisitorLimiter` followed by `limiter.Allow()`, over the registry:
look the IP up, create a full-capacity entry when absent (ratelimiter.go
lines 23-39), run the check and store the updated entry. -/
def admissionCheck (now : ℚ) (vm : VisitorMap) (ip : String) : Bool × VisitorMap :=
  match vm.find? (fun e => e.1 == ip) with
  | none =>
      let r := visitorCheck now { bucket := freshBucket now, lastSeen := now }
      (r.1, (ip, r.2) :: vm)
  | some e =>
      let r := visitorCheck now e.2
      (r.1, vm.map (fun p => if p.1 == ip then (ip, r.2) else p))

/-- A sequence of admission checks for one IP at the given times. -/
def runAdmission (times : List ℚ) (vm : VisitorMap) (ip : String) :
    List Bool × VisitorMap :=
  match times with
  | [] => ([], vm)
  | t :: rest =>
      let r := admissionCheck t vm ip
      let s := runAdmission rest r.2 ip
      (r.1 :: s.1, s.2)

/-- C3: for every fresh client identity (any IP absent from the registry)
and any start time `t`, with burst capacity 5: the first 5 consecutive
`Allow()` calls are admitted, the 6th immediately after is rejected, and
after exactly one full token-refill interval (`1/sustainedRate = 1/2`
second) exactly one further call is admitted — the next call at the same
instant is rejected again. -/
theorem c3_burst_of_five_then_one_refill (t : ℚ) (ip : String) :
    (runAdmission [t, t, t, t, t, t, t + 1/2, t + 1/2] [] ip).1
      = [true, true, true, true, true, false, true, false] := by
  simp [runAdmission, admissionCheck, visitorCheck, bucketAllow, freshBucket]
  norm_num

/-- C8 counterexample: a rejected call does mutate the visitor's state.
At `now = 1/10` a visitor whose bucket was exhausted at time 0 is
rejected, yet `lastSeen` moves from 0 to 1/10 (and the lazy refill also
moves `tokens` to 1/5 and `lastRefillAt` to 1/10). -/
theorem c8_counterexample_rejection_updates_lastSeen :
    (visitorCheck (1/10) { bucket := { tokens := 0, lastRefillAt := 0 }, lastSeen := 0 }).1
        = false
    ∧ (visitorCheck (1/10)
        { bucket := { tokens := 0, lastRefillAt := 0 }, lastSeen := 0 }).2.lastSeen
        = 1/10
    ∧ ¬ ((visitorCheck (1/10)
        { bucket := { tokens := 0, lastRefillAt := 0 }, lastSeen := 0 }).2.lastSeen
        = 0) := by
  refine ⟨?_, ?_, ?_⟩ <;> norm_num [visitorCheck, bucketAllow]

/-- C8 amended: a rejected `Allow()` deducts no token — the resulting
token count is exactly the lazily refilled amount — but the call does
update the visitor's `lastSeen` (and the bucket's `lastRefillAt`) to the
call time: rejection is not mutation-free. -/
theorem c8_amended_no_deduction_but_lastSeen_updated (now : ℚ) (v : Visitor)
    (h : (visitorCheck now v).1 = false) :
    (visitorCheck now v).2.bucket.tokens
        = min 5 (v.bucket.tokens + (now - v.bucket.lastRefillAt) * 2)
    ∧ (visitorCheck now v).2.bucket.lastRefillAt = now
    ∧ (visitorCheck now v).2.lastSeen = now := by
  by_cases hc : 1 ≤ min 5 (v.bucket.tokens + (now - v.bucket.lastRefillAt) * 2)
  · simp [visitorCheck, bucketAllow, hc] at h
  · simp [visitorCheck, bucketAllow, hc]

/-- Witness for C8 (amended): the rejected call at `now = 1/10` on the
exhausted visitor keeps the refilled tokens undeducted and moves
`lastSeen` to the call time. -/
theorem c8_amended_no_deduction_but_lastSeen_updated_witness :
    (visitorCheck (1/10)
        { bucket := { tokens := 0, lastRefillAt := 0 }, lastSeen := 0 }).2.lastSeen = 1/10
    ∧ (visitorCheck (1/10)
        { bucket := { tokens := 0, lastRefillAt := 0 }, lastSeen := 0 }).2.bucket.tokens
        = min 5 ((0:ℚ) + (1/10 - 0) * 2) :=
  have h := c8_amended_no_deduction_but_lastSeen_updated (1/10)
    { bucket := { tokens := 0, lastRefillAt := 0 }, lastSeen := 0 }
    (by norm_num [visitorCheck, bucketAllow])
  ⟨h.2.2, h.1⟩

/-! ## The reaper -/

/-- Go's `strings.HasSuffix(s, sfx)` over character lists. -/
def goHasSuffix (s sfx : String) : Bool :=
  sfx.toList.isSuffixOf s.toList

/-- `isTesting` from ratelimiter.go lines 70-73: the process counts as a
test process when the process name `os.Args[0]` ends in ".test". -/
def isTesting (arg0 : String) : Bool :=
  goHasSuffix arg0 ".test"

/-- `VisitorCleanup` from ratelimiter.go lines 52-67: a single reaper
pass.  In a test process the whole map is replaced by a fresh empty one;
otherwise every entry whose `lastSeen` lies more than 3 minutes (180
seconds) in the past is deleted. -/
def visitorCleanup (arg0 : String) (now : ℚ) (vm : VisitorMap) : VisitorMap :=
  if isTesting arg0 then []
  else vm.filter (fun e => !decide (now - e.2.lastSeen > 180))

/-- C9: after a single reaper pass, every bucket whose `lastSeen` is
older than the idle threshold (3 minutes) is absent from the registry —
in a test process because the pass empties the registry entirely,
otherwise because the time rule deletes exactly the stale entries. -/
theorem c9_reaper_evicts_idle_buckets (arg0 : String) (now : ℚ) (vm : VisitorMap)
    (ip : String) (v : Visitor) (h : now - v.lastSeen > 180) :
    (ip, v) ∉ visitorCleanup arg0 now vm := by
  unfold visitorCleanup
  by_cases ht : isTesting arg0
  · simp [ht]
  · rw [if_neg ht]
    intro hmem
    have hp := (List.mem_filter.mp hmem).2
    simp only [Bool.not_eq_true', decide_eq_false_iff_not] at hp
    exact hp h

/-- Witness for C9: an entry last seen at time 0 is gone from the
registry after a reaper pass at time 200 (> 180 seconds idle) in a
normally named process. -/
theorem c9_reaper_evicts_idle_buckets_witness :
    ("1.2.3.4", (⟨⟨5, 0⟩, 0⟩ : Visitor)) ∉
      visitorCleanup "gateway" 200 [("1.2.3.4", (⟨⟨5, 0⟩, 0⟩ : Visitor))] :=
  c9_reaper_evicts_idle_buckets "gateway" 200 _ "1.2.3.4" ⟨⟨5, 0⟩, 0⟩ (by norm_num)

/-- A visitor seen at time 100, well within the idle threshold of a pass
at time 100. -/
def c10Fresh : Visitor := ⟨⟨5, 100⟩, 100⟩

/-- C10: when the process name ends in ".test" a single reaper pass
evicts every bucket, fresh ones included; when it does not, membership
after the pass is membership before it restricted by the 3-minute idle
rule — the time-based eviction applies only outside test processes. -/
theorem c10_test_mode_cleanup_empties_registry (arg0 : String) (now : ℚ)
    (vm : VisitorMap) (ip : String) (v : Visitor) (h : (ip, v) ∈ vm) :
    (goHasSuffix arg0 ".test" = true → (ip, v) ∉ visitorCleanup arg0 now vm)
    ∧ (goHasSuffix arg0 ".test" = false →
        ((ip, v) ∈ visitorCleanup arg0 now vm ↔ ¬ (now - v.lastSeen > 180))) := by
  constructor
  · intro ht
    simp [visitorCleanup, isTesting, ht]
  · intro ht
    unfold visitorCleanup isTesting
    rw [ht]
    simp [List.mem_filter, h]

/-- Witness for C10: the same fresh entry survives a pass at time 100 in
a process named "gateway" but is evicted in one named "gateway.test". -/
theorem c10_test_mode_cleanup_empties_registry_witness :
    ("1.2.3.4", c10Fresh) ∉
        visitorCleanup "gateway.test" 100 [("1.2.3.4", c10Fresh)]
    ∧ (("1.2.3.4", c10Fresh) ∈ visitorCleanup "gateway" 100 [("1.2.3.4", c10Fresh)]
        ↔ ¬ ((100 : ℚ) - c10Fresh.lastSeen > 180)) :=
  ⟨(c10_test_mode_cleanup_empties_registry "gateway.test" 100 _ "1.2.3.4" c10Fresh
      (by simp)).1 (by decide),
   (c10_test_mode_cleanup_empties_registry "gateway" 100 _ "1.2.3.4" c10Fresh
      (by simp)).2 (by decide)⟩

/-! ## The assembled handler chain of cmd/api/main.go -/

/-- `RateLimitMiddleware` from pkg/middleware: run the admission check for
the client IP; on rejection answer
`http.Error(w, http.StatusText(429), 429)` and return without invoking
the wrapped handler; on admission the wrapped handler's outcome stands. -/
def rateLimitMiddleware (now : ℚ) (vm : VisitorMap) (ip : String)
    (next : GatewayOutcome) : GatewayOutcome × VisitorMap :=
  let r := admissionCheck now vm ip
  if r.1 then (next, r.2) else (httpError "Too Many Requests" 429, r.2)

/-- Go's `http.StripPrefix("/api", proxyHandler)` as mounted in main.go:
when the path carries the `/api` prefix, serve the proxy handler on the
path with the first 4 characters removed; otherwise `http.NotFound`. -/
def stripApiHandle (routes : List Route) (path : String) : GatewayOutcome :=
  if goHasPrefix path "/api" then
    proxyServeHTTP routes (String.mk (path.toList.drop 4))
  else httpError "404 page not found" 404

/-- The protected handler chain that `main.go` actually installs for
`/api/...` requests (lines 55-107): the mux subrouter applies
`AuthMiddleware` (abstracted by `authOK`, its 401 bodies vary), then
`http.StripPrefix("/api", proxyHandler)`.  `RateLimitMiddleware` and
the reaper loop are defined in the repository but never wired into this
chain, so the registry, the clock and the client identity — the last
three parameters — are never consulted. -/
def mainProtectedHandle (routes : List Route) (authOK : Bool) (_vm : VisitorMap)
    (_now : ℚ) (_ip : String) (path : String) : GatewayOutcome :=
  if !authOK then httpError "Invalid token" 401
  else stripApiHandle routes path

/-- The registry used for the C4 evidence: client "9.9.9.9" has an
exhausted bucket at time 0, so its next admission check is rejected. -/
def c4ExhaustedVm : VisitorMap :=
  [("9.9.9.9", { bucket := { tokens := 0, lastRefillAt := 0 }, lastSeen := 0 })]

/-- The route table used for the C4 evidence. -/
def c4Routes : List Route :=
  [{ PathPrefix := "/users", UpstreamURL := "http://users-svc" }]

/-- C4 (evidence of the defect): `main.go` wires no rate-limit middleware
into the handler chain, so a request whose admission check is rejected
still reaches route resolution and is forwarded upstream.  At time 0 the
registered client "9.9.9.9" has an exhausted bucket: `admissionCheck`
rejects it, and `rateLimitMiddleware` — had it been installed — would
answer 429 without reaching the proxy; yet the assembled chain forwards
the authenticated request `/api/users/1` to the `/users` upstream. -/
theorem c4_admission_check_not_wired_into_chain :
    (admissionCheck 0 c4ExhaustedVm "9.9.9.9").1 = false
    ∧ (rateLimitMiddleware 0 c4ExhaustedVm "9.9.9.9"
          (proxyServeHTTP c4Routes "/users/1")).1
        = httpError "Too Many Requests" 429
    ∧ mainProtectedHandle c4Routes true c4ExhaustedVm 0 "9.9.9.9" "/api/users/1"
        = GatewayOutcome.forwarded
            { PathPrefix := "/users", UpstreamURL := "http://users-svc" } "/users/1" := by
  have hrej : (admissionCheck 0 c4ExhaustedVm "9.9.9.9").1 = false := by
    norm_num [admissionCheck, visitorCheck, bucketAllow, freshBucket, c4ExhaustedVm,
      List.find?]
  refine ⟨hrej, ?_, ?_⟩
  · simp [rateLimitMiddleware, hrej]
  · decide

end ApiGateway
